import Mathlib

/-!
Shallow embedding of the mortgage amortization engine in
`src/streamlit_app.py`.  All monetary and rate arithmetic in the source is
Python float arithmetic over values that are in fact rational; we model it
exactly over `ℚ`.  Calendar month addition (`dateutil.relativedelta` with a
`months=` argument) is modelled by `addMonths` with day-of-month clamping.
-/

namespace Mortgage

/-- A calendar date (year, month 1..12, day 1..31), mirroring Python's
`datetime.date` at month granularity plus a day component. -/
structure Date where
  year : Int
  month : Nat
  day : Nat
deriving DecidableEq, Repr

/-- Gregorian leap-year test, as in Python's `calendar`. -/
def isLeapYear (y : Int) : Bool :=
  (y % 4 == 0 && y % 100 != 0) || (y % 400 == 0)

/-- Number of days in a month of a given year. -/
def daysInMonth (y : Int) (m : Nat) : Nat :=
  if m = 2 then (if isLeapYear y then 29 else 28)
  else if m = 4 ∨ m = 6 ∨ m = 9 ∨ m = 11 then 30
  else 31

/-- `d + relativedelta(months=m)`: add `m` whole months, clamping the day of
month to the length of the target month (Jan 31 + 1 month = Feb 28/29). -/
def addMonths (d : Date) (m : Nat) : Date :=
  let t := d.month - 1 + m
  let y := d.year + (t / 12 : Nat)
  let mo := t % 12 + 1
  { year := y, month := mo, day := min d.day (daysInMonth y mo) }

/-- The loan parameters read from the UI widgets (lines 74-128 of
`streamlit_app.py`): loan amount, annual interest rate in percent, term in
years, start date, grace months, deferral months. -/
structure LoanInputs where
  loan_amount : ℚ
  interest_rate : ℚ
  loan_term_years : Nat
  start_date : Date
  grace_months : Nat
  deferral_months : Nat

/-- Line 133: `monthly_rate = interest_rate / 100 / 12`. -/
def monthly_rate (i : LoanInputs) : ℚ := i.interest_rate / 100 / 12

/-- Line 136: `total_payments = loan_term_years * 12`. -/
def total_payments (i : LoanInputs) : Nat := i.loan_term_years * 12

/-- Lines 141-147: compound interest accrual during the deferral period. -/
def adjusted_principal (i : LoanInputs) : ℚ :=
  if 0 < i.deferral_months then
    i.loan_amount * (1 + monthly_rate i) ^ i.deferral_months
  else
    i.loan_amount

/-- Lines 141-147: `deferred_interest = adjusted_principal - loan_amount`
when the deferral period is nonempty, else `0`. -/
def deferred_interest (i : LoanInputs) : ℚ :=
  if 0 < i.deferral_months then
    adjusted_principal i - i.loan_amount
  else
    0

/-- Lines 151-156: the fixed-payment amortization formula, with the
straight-line branch when the monthly rate is not positive. -/
def monthly_payment (i : LoanInputs) : ℚ :=
  if 0 < monthly_rate i then
    adjusted_principal i *
      (monthly_rate i * (1 + monthly_rate i) ^ total_payments i) /
      ((1 + monthly_rate i) ^ total_payments i - 1)
  else
    adjusted_principal i / (total_payments i : ℚ)

/-- Line 159: `total_amount_paid = monthly_payment * total_payments`. -/
def total_amount_paid (i : LoanInputs) : ℚ :=
  monthly_payment i * (total_payments i : ℚ)

/-- Line 162: `total_interest = total_amount_paid - loan_amount`. -/
def total_interest (i : LoanInputs) : ℚ :=
  total_amount_paid i - i.loan_amount

/-- Line 166: first payment after grace plus deferral months. -/
def first_payment_date (i : LoanInputs) : Date :=
  addMonths i.start_date (i.grace_months + i.deferral_months)

/-- Line 167: `payoff_date = first_payment_date + total_payments` months. -/
def payoff_date (i : LoanInputs) : Date :=
  addMonths (first_payment_date i) (total_payments i)

/-- The `Status` column of the detailed schedule: grace ("Grație"),
deferral ("Amânare"), repayment ("Plată"). -/
inductive Phase
  | grace
  | deferral
  | repayment
deriving DecidableEq, Repr

/-- One row of `detailed_schedule_data` (lines 180-230): month index, date,
principal paid, interest, total paid, remaining balance, phase. -/
structure ScheduleRow where
  luna : Nat
  data : Date
  plata_principal : ℚ
  dobanda : ℚ
  plata_totala : ℚ
  sold_ramas : ℚ
  status : Phase
deriving DecidableEq, Repr

/-- The running balance of the deferral loop (lines 192-195): starting at
`loan_amount`, each month adds `balance * monthly_rate`. -/
def deferralBalance (i : LoanInputs) : Nat → ℚ
  | 0 => i.loan_amount
  | k + 1 => deferralBalance i k + deferralBalance i k * monthly_rate i

/-- The running balance of the repayment loop (lines 212-215): starting at
`adjusted_principal`, each month subtracts
`monthly_payment - balance * monthly_rate`. -/
def repaymentBalance (i : LoanInputs) : Nat → ℚ
  | 0 => adjusted_principal i
  | k + 1 =>
      repaymentBalance i k -
        (monthly_payment i - repaymentBalance i k * monthly_rate i)

/-- Phase 1 rows (lines 178-189): grace period, balance constant, nothing
paid, no interest. -/
def graceRows (i : LoanInputs) : List ScheduleRow :=
  (List.range i.grace_months).map fun k =>
    { luna := k + 1
      data := addMonths i.start_date k
      plata_principal := 0
      dobanda := 0
      plata_totala := 0
      sold_ramas := i.loan_amount
      status := Phase.grace }

/-- Phase 2 rows (lines 192-205): deferral period, interest accrues onto the
balance, nothing paid; the `Dobândă` column records the accrued interest. -/
def deferralRows (i : LoanInputs) : List ScheduleRow :=
  (List.range i.deferral_months).map fun k =>
    { luna := i.grace_months + k + 1
      data := addMonths i.start_date (i.grace_months + k)
      plata_principal := 0
      dobanda := deferralBalance i k * monthly_rate i
      plata_totala := 0
      sold_ramas := deferralBalance i (k + 1)
      status := Phase.deferral }

/-- Phase 3 rows (lines 212-230): repayment period; the recorded remaining
balance is floored at zero (`max(0, balance)`). -/
def repaymentRows (i : LoanInputs) : List ScheduleRow :=
  (List.range (total_payments i)).map fun k =>
    { luna := i.grace_months + i.deferral_months + k + 1
      data := addMonths (first_payment_date i) k
      plata_principal := monthly_payment i - repaymentBalance i k * monthly_rate i
      dobanda := repaymentBalance i k * monthly_rate i
      plata_totala := monthly_payment i
      sold_ramas := max 0 (repaymentBalance i (k + 1))
      status := Phase.repayment }

/-- The full detailed schedule, in order: grace, deferral, repayment. -/
def detailed_schedule_data (i : LoanInputs) : List ScheduleRow :=
  graceRows i ++ deferralRows i ++ repaymentRows i

/-- The single failure mode of the engine (line 358's warning path). -/
inductive ComputeError
  | insufficientInput
deriving DecidableEq, Repr

/-- Summary and schedule produced inside the guarded block (lines 131-244). -/
structure AmortizationResult where
  monthly_payment : ℚ
  adjusted_principal : ℚ
  deferred_interest : ℚ
  total_amount_paid : ℚ
  total_interest : ℚ
  first_payment_date : Date
  payoff_date : Date
  schedule : List ScheduleRow

/-- The record assembled by the guarded computation block. -/
def makeResult (i : LoanInputs) : AmortizationResult :=
  { monthly_payment := monthly_payment i
    adjusted_principal := adjusted_principal i
    deferred_interest := deferred_interest i
    total_amount_paid := total_amount_paid i
    total_interest := total_interest i
    first_payment_date := first_payment_date i
    payoff_date := payoff_date i
    schedule := detailed_schedule_data i }

/-- Line 131: the whole computation runs only under
`loan_amount > 0 and interest_rate > 0`; otherwise the app shows the
"insufficient input" warning and produces nothing. -/
def compute (i : LoanInputs) : Except ComputeError AmortizationResult :=
  if 0 < i.loan_amount ∧ 0 < i.interest_rate then
    Except.ok (makeResult i)
  else
    Except.error ComputeError.insufficientInput

/-- Example input used by the witnesses: 200000 at 5% over 15 years, with a
2-month grace period and a 12-month deferral, starting 2024-01-31. -/
def exA : LoanInputs :=
  { loan_amount := 200000
    interest_rate := 5
    loan_term_years := 15
    start_date := { year := 2024, month := 1, day := 31 }
    grace_months := 2
    deferral_months := 12 }

/-- Small example with a 1-month deferral, used for the C7 counterexample. -/
def exB : LoanInputs :=
  { loan_amount := 1000
    interest_rate := 12
    loan_term_years := 1
    start_date := { year := 2024, month := 1, day := 15 }
    grace_months := 0
    deferral_months := 1 }

/-- Example input rejected by the guard (zero loan amount). -/
def exC : LoanInputs :=
  { loan_amount := 0
    interest_rate := 5
    loan_term_years := 10
    start_date := { year := 2024, month := 6, day := 1 }
    grace_months := 0
    deferral_months := 0 }

lemma monthly_rate_pos (i : LoanInputs) (hr : 0 < i.interest_rate) :
    0 < monthly_rate i := by
  unfold monthly_rate
  positivity

lemma one_add_rate_pos (i : LoanInputs) (hr : 0 < i.interest_rate) :
    0 < 1 + monthly_rate i := by
  have := monthly_rate_pos i hr
  linarith

lemma adjusted_principal_pos (i : LoanInputs) (hA : 0 < i.loan_amount)
    (hr : 0 < i.interest_rate) : 0 < adjusted_principal i := by
  unfold adjusted_principal
  split
  · exact mul_pos hA (pow_pos (one_add_rate_pos i hr) _)
  · exact hA

lemma total_payments_ne_zero (i : LoanInputs) (hy : 0 < i.loan_term_years) :
    total_payments i ≠ 0 := by
  unfold total_payments
  omega

lemma one_lt_pow_rate (i : LoanInputs) (hr : 0 < i.interest_rate)
    (hy : 0 < i.loan_term_years) :
    1 < (1 + monthly_rate i) ^ total_payments i := by
  have h1 : (1 : ℚ) < 1 + monthly_rate i := by
    have := monthly_rate_pos i hr
    linarith
  exact one_lt_pow₀ h1 (total_payments_ne_zero i hy)

lemma monthly_payment_eq (i : LoanInputs) (hr : 0 < i.interest_rate) :
    monthly_payment i =
      adjusted_principal i *
        (monthly_rate i * (1 + monthly_rate i) ^ total_payments i) /
        ((1 + monthly_rate i) ^ total_payments i - 1) :=
  if_pos (monthly_rate_pos i hr)

/-- The monthly payment strictly exceeds one month of interest on the full
adjusted principal. -/
lemma adjusted_mul_rate_lt_payment (i : LoanInputs) (hA : 0 < i.loan_amount)
    (hr : 0 < i.interest_rate) (hy : 0 < i.loan_term_years) :
    adjusted_principal i * monthly_rate i < monthly_payment i := by
  have hq : 1 < (1 + monthly_rate i) ^ total_payments i :=
    one_lt_pow_rate i hr hy
  have hApos : 0 < adjusted_principal i := adjusted_principal_pos i hA hr
  have hrpos : 0 < monthly_rate i := monthly_rate_pos i hr
  have hAr : 0 < adjusted_principal i * monthly_rate i := mul_pos hApos hrpos
  rw [monthly_payment_eq i hr, lt_div_iff₀ (by linarith)]
  nlinarith

/-- The repayment-loop balance never rises above the adjusted principal. -/
lemma repaymentBalance_le (i : LoanInputs) (hA : 0 < i.loan_amount)
    (hr : 0 < i.interest_rate) (hy : 0 < i.loan_term_years) :
    ∀ k, repaymentBalance i k ≤ adjusted_principal i := by
  intro k
  induction k with
  | zero => exact le_refl _
  | succ k ih =>
      have hpay := adjusted_mul_rate_lt_payment i hA hr hy
      have hrpos := monthly_rate_pos i hr
      have hmul : repaymentBalance i k * monthly_rate i ≤
          adjusted_principal i * monthly_rate i :=
        mul_le_mul_of_nonneg_right ih (le_of_lt hrpos)
      show repaymentBalance i k -
          (monthly_payment i - repaymentBalance i k * monthly_rate i) ≤
          adjusted_principal i
      linarith

/-- Each repayment period strictly decreases the loop balance. -/
lemma repaymentBalance_succ_lt (i : LoanInputs) (hA : 0 < i.loan_amount)
    (hr : 0 < i.interest_rate) (hy : 0 < i.loan_term_years) (k : Nat) :
    repaymentBalance i (k + 1) < repaymentBalance i k := by
  have hle := repaymentBalance_le i hA hr hy k
  have hpay := adjusted_mul_rate_lt_payment i hA hr hy
  have hrpos := monthly_rate_pos i hr
  have hmul : repaymentBalance i k * monthly_rate i ≤
      adjusted_principal i * monthly_rate i :=
    mul_le_mul_of_nonneg_right hle (le_of_lt hrpos)
  show repaymentBalance i k -
      (monthly_payment i - repaymentBalance i k * monthly_rate i) <
      repaymentBalance i k
  linarith

lemma repaymentBalance_strictAnti (i : LoanInputs) (hA : 0 < i.loan_amount)
    (hr : 0 < i.interest_rate) (hy : 0 < i.loan_term_years) :
    StrictAnti (repaymentBalance i) :=
  strictAnti_nat_of_succ_lt (repaymentBalance_succ_lt i hA hr hy)

/-- Closed form of the repayment-loop balance. -/
lemma repaymentBalance_closed (i : LoanInputs) (hr : 0 < i.interest_rate) :
    ∀ k, repaymentBalance i k =
      adjusted_principal i * (1 + monthly_rate i) ^ k -
        monthly_payment i * ((1 + monthly_rate i) ^ k - 1) / monthly_rate i := by
  have hrne : monthly_rate i ≠ 0 := ne_of_gt (monthly_rate_pos i hr)
  intro k
  induction k with
  | zero => simp [repaymentBalance]
  | succ k ih =>
      show repaymentBalance i k -
          (monthly_payment i - repaymentBalance i k * monthly_rate i) = _
      rw [ih]
      field_simp
      ring

/-- In exact arithmetic the repayment balance reaches exactly zero after the
last scheduled payment. -/
lemma repaymentBalance_final (i : LoanInputs) (hr : 0 < i.interest_rate)
    (hy : 0 < i.loan_term_years) :
    repaymentBalance i (total_payments i) = 0 := by
  have hq : 1 < (1 + monthly_rate i) ^ total_payments i :=
    one_lt_pow_rate i hr hy
  have hqne : (1 + monthly_rate i) ^ total_payments i - 1 ≠ 0 := by linarith
  have hrne : monthly_rate i ≠ 0 := ne_of_gt (monthly_rate_pos i hr)
  rw [repaymentBalance_closed i hr, monthly_payment_eq i hr]
  field_simp
  ring

lemma repaymentBalance_nonneg (i : LoanInputs) (hA : 0 < i.loan_amount)
    (hr : 0 < i.interest_rate) (hy : 0 < i.loan_term_years) (k : Nat)
    (hk : k ≤ total_payments i) : 0 ≤ repaymentBalance i k := by
  rcases eq_or_lt_of_le hk with h | h
  · rw [h, repaymentBalance_final i hr hy]
  · have hlt := repaymentBalance_strictAnti i hA hr hy h
    rw [repaymentBalance_final i hr hy] at hlt
    exact le_of_lt hlt

/-- Closed form of the deferral-loop balance. -/
lemma deferralBalance_closed (i : LoanInputs) :
    ∀ k, deferralBalance i k = i.loan_amount * (1 + monthly_rate i) ^ k := by
  intro k
  induction k with
  | zero => simp [deferralBalance]
  | succ k ih =>
      show deferralBalance i k + deferralBalance i k * monthly_rate i = _
      rw [ih, pow_succ]
      ring

lemma deferralBalance_pos (i : LoanInputs) (hA : 0 < i.loan_amount)
    (hr : 0 < i.interest_rate) (k : Nat) : 0 < deferralBalance i k := by
  rw [deferralBalance_closed]
  exact mul_pos hA (pow_pos (one_add_rate_pos i hr) _)

lemma repaymentRows_length (i : LoanInputs) :
    (repaymentRows i).length = total_payments i := by
  simp [repaymentRows]

lemma repaymentRows_get (i : LoanInputs) (k : Nat)
    (h : k < (repaymentRows i).length) :
    (repaymentRows i).get ⟨k, h⟩ =
      { luna := i.grace_months + i.deferral_months + k + 1
        data := addMonths (first_payment_date i) k
        plata_principal :=
          monthly_payment i - repaymentBalance i k * monthly_rate i
        dobanda := repaymentBalance i k * monthly_rate i
        plata_totala := monthly_payment i
        sold_ramas := max 0 (repaymentBalance i (k + 1))
        status := Phase.repayment } := by
  simp [repaymentRows, List.get_eq_getElem]

/-- C1: for every input with principal > 0 and annualRatePercent > 0, the
computed monthly payment equals
`adjustedPrincipal * r * (1+r)^n / ((1+r)^n - 1)` with `r` the monthly rate
and `n = termYears * 12`. -/
theorem spec_C1 (i : LoanInputs) (hA : 0 < i.loan_amount)
    (hr : 0 < i.interest_rate) :
    monthly_payment i =
      adjusted_principal i * monthly_rate i *
        (1 + monthly_rate i) ^ total_payments i /
        ((1 + monthly_rate i) ^ total_payments i - 1) := by
  rw [monthly_payment_eq i hr]
  ring

/-- Witness for C1 at the concrete input `exA`. -/
theorem spec_C1_witness :
    (0 < exA.loan_amount ∧ 0 < exA.interest_rate) ∧
      monthly_payment exA =
        adjusted_principal exA * monthly_rate exA *
          (1 + monthly_rate exA) ^ total_payments exA /
          ((1 + monthly_rate exA) ^ total_payments exA - 1) :=
  ⟨⟨by norm_num [exA], by norm_num [exA]⟩,
    spec_C1 exA (by norm_num [exA]) (by norm_num [exA])⟩

/-- C2: with principal > 0 and rate > 0, a positive deferral period yields
`adjustedPrincipal = principal * (1+r)^deferralMonths` with
`deferredInterestAccrued = adjustedPrincipal - principal`, and a zero
deferral period yields `adjustedPrincipal = principal` with zero accrual. -/
theorem spec_C2 (i : LoanInputs) (hA : 0 < i.loan_amount)
    (hr : 0 < i.interest_rate) :
    (0 < i.deferral_months →
      adjusted_principal i =
        i.loan_amount * (1 + monthly_rate i) ^ i.deferral_months ∧
      deferred_interest i = adjusted_principal i - i.loan_amount) ∧
    (i.deferral_months = 0 →
      adjusted_principal i = i.loan_amount ∧ deferred_interest i = 0) := by
  constructor
  · intro hd
    exact ⟨if_pos hd, if_pos hd⟩
  · intro hd
    have hd0 : ¬ 0 < i.deferral_months := by omega
    exact ⟨if_neg hd0, if_neg hd0⟩

/-- Witness for C2 at the concrete input `exA` (which has a 12-month
deferral period). -/
theorem spec_C2_witness :
    (0 < exA.loan_amount ∧ 0 < exA.interest_rate ∧ 0 < exA.deferral_months) ∧
      adjusted_principal exA =
        exA.loan_amount * (1 + monthly_rate exA) ^ exA.deferral_months ∧
      deferred_interest exA = adjusted_principal exA - exA.loan_amount :=
  ⟨⟨by norm_num [exA], by norm_num [exA], by norm_num [exA]⟩,
    (spec_C2 exA (by norm_num [exA]) (by norm_num [exA])).1 (by norm_num [exA])⟩

/-- C3: `compute` signals `insufficientInput` exactly when the principal or
the annual rate is nonpositive, and any produced result presupposes the
guard; the error constructor carries no schedule and no summary, so no
partial results exist on failure. -/
theorem spec_C3 (i : LoanInputs) :
    (compute i = Except.error ComputeError.insufficientInput ↔
      i.loan_amount ≤ 0 ∨ i.interest_rate ≤ 0) ∧
    (∀ res : AmortizationResult, compute i = Except.ok res →
      0 < i.loan_amount ∧ 0 < i.interest_rate) := by
  unfold compute
  constructor
  · split
    · rename_i h
      constructor
      · intro hcontr
        exact Except.noConfusion hcontr
      · intro hle
        rcases hle with hle | hle
        · exact absurd h.1 (not_lt.2 hle)
        · exact absurd h.2 (not_lt.2 hle)
    · rename_i h
      push_neg at h
      constructor
      · intro _
        rcases le_or_lt i.loan_amount 0 with hle | hlt
        · exact Or.inl hle
        · exact Or.inr (h hlt)
      · intro _
        rfl
  · intro res hres
    split at hres
    · rename_i h
      exact h
    · exact Except.noConfusion hres

/-- Witness for C3: the guard rejects `exC` (zero loan amount). -/
theorem spec_C3_witness :
    compute exC = Except.error ComputeError.insufficientInput :=
  (spec_C3 exC).1.2 (Or.inl (by norm_num [exC]))

/-- C4: for every valid input, the per-period deferral simulation ends at
exactly the closed-form adjusted principal. -/
theorem spec_C4 (i : LoanInputs) (hA : 0 < i.loan_amount)
    (hr : 0 < i.interest_rate) :
    deferralBalance i i.deferral_months = adjusted_principal i := by
  rw [deferralBalance_closed]
  unfold adjusted_principal
  split
  · rfl
  · rename_i h
    have hd : i.deferral_months = 0 := by omega
    rw [hd, pow_zero, mul_one]

/-- Witness for C4 at the concrete input `exA`. -/
theorem spec_C4_witness :
    (0 < exA.loan_amount ∧ 0 < exA.interest_rate) ∧
      deferralBalance exA exA.deferral_months = adjusted_principal exA :=
  ⟨⟨by norm_num [exA], by norm_num [exA]⟩,
    spec_C4 exA (by norm_num [exA]) (by norm_num [exA])⟩

/-- C6: for every valid input, `totalPaid = monthlyPayment * termMonths` and
`totalInterest = totalPaid - principal`, against the original principal. -/
theorem spec_C6 (i : LoanInputs) (hA : 0 < i.loan_amount)
    (hr : 0 < i.interest_rate) :
    total_amount_paid i = monthly_payment i * (total_payments i : ℚ) ∧
    total_interest i = total_amount_paid i - i.loan_amount :=
  ⟨rfl, rfl⟩

/-- Witness for C6 at the concrete input `exA`. -/
theorem spec_C6_witness :
    (0 < exA.loan_amount ∧ 0 < exA.interest_rate) ∧
      total_amount_paid exA = monthly_payment exA * (total_payments exA : ℚ) ∧
      total_interest exA = total_amount_paid exA - exA.loan_amount :=
  ⟨⟨by norm_num [exA], by norm_num [exA]⟩,
    spec_C6 exA (by norm_num [exA]) (by norm_num [exA])⟩

/-- C9: whenever the top-level guard passes, the monthly rate is strictly
positive, so the positive-rate branch of the payment formula is taken and
the straight-line zero-rate branch is unreachable. -/
theorem spec_C9 (i : LoanInputs) (hA : 0 < i.loan_amount)
    (hr : 0 < i.interest_rate) :
    0 < monthly_rate i ∧
      monthly_payment i =
        adjusted_principal i *
          (monthly_rate i * (1 + monthly_rate i) ^ total_payments i) /
          ((1 + monthly_rate i) ^ total_payments i - 1) :=
  ⟨monthly_rate_pos i hr, monthly_payment_eq i hr⟩

/-- Witness for C9 at the concrete input `exA`. -/
theorem spec_C9_witness :
    (0 < exA.loan_amount ∧ 0 < exA.interest_rate) ∧ 0 < monthly_rate exA :=
  ⟨⟨by norm_num [exA], by norm_num [exA]⟩,
    (spec_C9 exA (by norm_num [exA]) (by norm_num [exA])).1⟩

/-- C5: for every valid input, every recorded remaining balance across the
three phases is non-negative, and the remaining balance recorded in the last
repayment period is exactly zero. -/
theorem spec_C5 (i : LoanInputs) (hA : 0 < i.loan_amount)
    (hr : 0 < i.interest_rate) (hy : 0 < i.loan_term_years) :
    (∀ row ∈ detailed_schedule_data i, 0 ≤ row.sold_ramas) ∧
    (repaymentRows i).getLast?.map ScheduleRow.sold_ramas = some 0 := by
  constructor
  · intro row hrow
    unfold detailed_schedule_data at hrow
    rcases List.mem_append.1 hrow with h | h
    · rcases List.mem_append.1 h with h | h
      · obtain ⟨k, hk, rfl⟩ := List.mem_map.1 h
        exact le_of_lt hA
      · obtain ⟨k, hk, rfl⟩ := List.mem_map.1 h
        exact le_of_lt (deferralBalance_pos i hA hr (k + 1))
    · obtain ⟨k, hk, rfl⟩ := List.mem_map.1 h
      exact le_max_left 0 _
  · obtain ⟨m, hm⟩ :=
      Nat.exists_eq_succ_of_ne_zero (total_payments_ne_zero i hy)
    have hm1 : total_payments i = m + 1 := hm
    have hfin : repaymentBalance i (m + 1) = 0 := by
      rw [← hm1]
      exact repaymentBalance_final i hr hy
    unfold repaymentRows
    rw [hm, List.range_succ, List.map_append]
    simp only [List.map_cons, List.map_nil]
    rw [List.getLast?_concat]
    simp [hfin]

/-- Witness for C5 at the concrete input `exA`. -/
theorem spec_C5_witness :
    (0 < exA.loan_amount ∧ 0 < exA.interest_rate ∧ 0 < exA.loan_term_years) ∧
      (repaymentRows exA).getLast?.map ScheduleRow.sold_ramas = some 0 :=
  ⟨⟨by norm_num [exA], by norm_num [exA], by norm_num [exA]⟩,
    (spec_C5 exA (by norm_num [exA]) (by norm_num [exA])
      (by norm_num [exA])).2⟩

/-- C7 fails as stated: the deferral rows record the accrued interest in the
interest column (`Dobândă`), which is nonzero for a positive rate; on input
`exB` the single deferral row records 10, not 0. -/
theorem spec_C7_counterexample :
    0 < exB.loan_amount ∧ 0 < exB.interest_rate ∧
      ∃ row ∈ detailed_schedule_data exB,
        row.status = Phase.deferral ∧ row.dobanda ≠ 0 := by
  refine ⟨by norm_num [exB], by norm_num [exB], ?_⟩
  have h0 : (0 : Nat) ∈ List.range exB.deferral_months := by
    norm_num [exB]
  have hd : ({ luna := exB.grace_months + 0 + 1
               data := addMonths exB.start_date (exB.grace_months + 0)
               plata_principal := 0
               dobanda := deferralBalance exB 0 * monthly_rate exB
               plata_totala := 0
               sold_ramas := deferralBalance exB (0 + 1)
               status := Phase.deferral } : ScheduleRow) ∈ deferralRows exB := by
    unfold deferralRows
    exact List.mem_map_of_mem _ h0
  have hmem : ({ luna := exB.grace_months + 0 + 1
                 data := addMonths exB.start_date (exB.grace_months + 0)
                 plata_principal := 0
                 dobanda := deferralBalance exB 0 * monthly_rate exB
                 plata_totala := 0
                 sold_ramas := deferralBalance exB (0 + 1)
                 status := Phase.deferral } : ScheduleRow) ∈
      detailed_schedule_data exB := by
    unfold detailed_schedule_data
    exact List.mem_append_left _ (List.mem_append_right _ hd)
  refine ⟨_, hmem, rfl, ?_⟩
  show deferralBalance exB 0 * monthly_rate exB ≠ 0
  norm_num [deferralBalance, monthly_rate, exB]

/-- C7 amended: grace rows have zero principal paid, zero interest and zero
total paid; deferral rows have zero principal paid and zero total paid, but
their interest column records the accrued (unpaid) interest of the month
rather than zero. -/
theorem spec_C7_amended (i : LoanInputs) (hA : 0 < i.loan_amount)
    (hr : 0 < i.interest_rate) :
    (graceRows i).map
        (fun row => (row.plata_principal, row.dobanda, row.plata_totala)) =
      List.replicate i.grace_months ((0 : ℚ), (0 : ℚ), (0 : ℚ)) ∧
    (deferralRows i).map
        (fun row => (row.plata_principal, row.plata_totala)) =
      List.replicate i.deferral_months ((0 : ℚ), (0 : ℚ)) := by
  constructor
  · rw [List.eq_replicate_iff]
    constructor
    · simp [graceRows]
    · intro b hb
      obtain ⟨row, hrow, rfl⟩ := List.mem_map.1 hb
      obtain ⟨k, hk, rfl⟩ := List.mem_map.1 hrow
      rfl
  · rw [List.eq_replicate_iff]
    constructor
    · simp [deferralRows]
    · intro b hb
      obtain ⟨row, hrow, rfl⟩ := List.mem_map.1 hb
      obtain ⟨k, hk, rfl⟩ := List.mem_map.1 hrow
      rfl

/-- Witness for the amended C7 at the concrete input `exB`. -/
theorem spec_C7_witness :
    (0 < exB.loan_amount ∧ 0 < exB.interest_rate) ∧
      (deferralRows exB).map
          (fun row => (row.plata_principal, row.plata_totala)) =
        List.replicate exB.deferral_months ((0 : ℚ), (0 : ℚ)) :=
  ⟨⟨by norm_num [exB], by norm_num [exB]⟩,
    (spec_C7_amended exB (by norm_num [exB]) (by norm_num [exB])).2⟩

/-- C8: the first payment date is the start date plus grace plus deferral
months, the k-th repayment row's date is the first payment date plus k-1
months (0-based index k here), and the payoff date is the first payment date
plus the number of payments, all with day-clamping month addition. -/
theorem spec_C8 (i : LoanInputs) (hA : 0 < i.loan_amount)
    (hr : 0 < i.interest_rate) :
    first_payment_date i =
        addMonths i.start_date (i.grace_months + i.deferral_months) ∧
    (∀ k (h : k < (repaymentRows i).length),
      ((repaymentRows i).get ⟨k, h⟩).data =
        addMonths (first_payment_date i) k) ∧
    payoff_date i = addMonths (first_payment_date i) (total_payments i) := by
  refine ⟨rfl, ?_, rfl⟩
  intro k h
  rw [repaymentRows_get]

/-- Witness for C8 at the concrete input `exA`. -/
theorem spec_C8_witness :
    (0 < exA.loan_amount ∧ 0 < exA.interest_rate) ∧
      first_payment_date exA =
        addMonths exA.start_date (exA.grace_months + exA.deferral_months) :=
  ⟨⟨by norm_num [exA], by norm_num [exA]⟩,
    (spec_C8 exA (by norm_num [exA]) (by norm_num [exA])).1⟩

/-- C10: for every valid input, consecutive repayment rows record strictly
decreasing remaining balances, and every repayment period's principal
payment `monthlyPayment - balance * monthlyRate` is strictly positive. -/
theorem spec_C10 (i : LoanInputs) (hA : 0 < i.loan_amount)
    (hr : 0 < i.interest_rate) (hy : 0 < i.loan_term_years) :
    (∀ k (h : k + 1 < (repaymentRows i).length),
      ((repaymentRows i).get ⟨k + 1, h⟩).sold_ramas <
        ((repaymentRows i).get ⟨k, Nat.lt_of_succ_lt h⟩).sold_ramas) ∧
    (∀ k, k < total_payments i →
      0 < monthly_payment i - repaymentBalance i k * monthly_rate i) := by
  constructor
  · intro k h
    have hlen : (repaymentRows i).length = total_payments i :=
      repaymentRows_length i
    have hk2 : k + 2 ≤ total_payments i := by omega
    have h2 : 0 ≤ repaymentBalance i (k + 2) :=
      repaymentBalance_nonneg i hA hr hy _ hk2
    have h1 : 0 ≤ repaymentBalance i (k + 1) :=
      repaymentBalance_nonneg i hA hr hy _ (by omega)
    rw [repaymentRows_get, repaymentRows_get]
    show max 0 (repaymentBalance i (k + 1 + 1)) <
        max 0 (repaymentBalance i (k + 1))
    rw [max_eq_right h2, max_eq_right h1]
    exact repaymentBalance_succ_lt i hA hr hy (k + 1)
  · intro k hk
    have hle := repaymentBalance_le i hA hr hy k
    have hpay := adjusted_mul_rate_lt_payment i hA hr hy
    have hrpos := monthly_rate_pos i hr
    have hmul : repaymentBalance i k * monthly_rate i ≤
        adjusted_principal i * monthly_rate i :=
      mul_le_mul_of_nonneg_right hle (le_of_lt hrpos)
    linarith

/-- Witness for C10 at the concrete input `exA`, instantiated at the first
repayment period. -/
theorem spec_C10_witness :
    (0 < exA.loan_amount ∧ 0 < exA.interest_rate ∧ 0 < exA.loan_term_years) ∧
      0 < monthly_payment exA - repaymentBalance exA 0 * monthly_rate exA :=
  ⟨⟨by norm_num [exA], by norm_num [exA], by norm_num [exA]⟩,
    (spec_C10 exA (by norm_num [exA]) (by norm_num [exA])
      (by norm_num [exA])).2 0 (by norm_num [exA, total_payments])⟩

end Mortgage
